import Mathlib

/-!
Verification model of the SillyTavern contextual-sound extension
(src/index.js and the near-duplicate variants in src/unnamed/part_000).

Texts are modelled as lists of characters (all inputs are ASCII, so JS
UTF-16 indices coincide with character indices).  Each concrete regular
expression of the source is embedded as an explicit matcher function that
returns the earliest match at or after a given start position, mirroring
the semantics of RegExp.exec with the g flag: a successful exec sets
lastIndex to the end of the match, a failed exec resets lastIndex to 0.
JS numbers are modelled as rationals; timestamps as integers.
-/

/- The Batteries rational operations are marked irreducible, which blocks
the elaborator-side evaluation used by decide; scores are rationals, so
restore the default reducibility for this file. -/
attribute [local semireducible] Rat.add Rat.mul Rat.inv Rat.ofScientific

set_option maxRecDepth 8000000

set_option maxHeartbeats 4000000

/-- Character list standing for a JS string. -/
abbrev Chars := List Char

/-- Shorthand turning a Lean string literal into its character list. -/
def cs (s : String) : Chars := s.data

/-- The apostrophe character, used in the word list of the negation
exclusion regex of the source. -/
def apoC : Char := Char.ofNat 39

/-- JS word character class backslash-w: ASCII letters, digits, underscore. -/
def isWordChar (c : Char) : Bool :=
  ('a' ≤ c && c ≤ 'z') || ('A' ≤ c && c ≤ 'Z') || ('0' ≤ c && c ≤ '9') || c = '_'

/-- JS whitespace class backslash-s restricted to the ASCII whitespace the
texts of this repository use. -/
def isSpaceChar (c : Char) : Bool :=
  c = ' ' || c = '\t' || c = '\n' || c = '\r'

/-- ASCII lower-casing, the effect of String.toLowerCase on the texts used. -/
def lowerC (c : Char) : Char :=
  if 'A' ≤ c && c ≤ 'Z' then Char.ofNat (c.toNat + 32) else c

/-- Lower-case a whole text. -/
def lowerL (l : Chars) : Chars := l.map lowerC

/-- Substring containment, the semantics of String.prototype.includes. -/
def containsSub (needle : Chars) : Chars → Bool
  | [] => needle.isEmpty
  | c :: rest => needle.isPrefixOf (c :: rest) || containsSub needle rest

/-- JS String.prototype.trim on our character lists. -/
def jsTrim (l : Chars) : Chars :=
  ((l.dropWhile isSpaceChar).reverse.dropWhile isSpaceChar).reverse

/-- Split on runs of whitespace, the semantics of text.split on the
regex backslash-s-plus: pieces between maximal whitespace runs, with an
empty piece produced by a leading or trailing run. -/
def splitOnRuns (sep : Char → Bool) : Chars → List Chars
  | [] => [[]]
  | c :: rest =>
    let r := splitOnRuns sep rest
    if sep c then
      if (rest.head?.map sep).getD false then r else [] :: r
    else
      match r with
      | [] => [[c]]
      | piece :: pieces => (c :: piece) :: pieces

/-- text.split on the whitespace regex. -/
def splitWs (l : Chars) : List Chars := splitOnRuns isSpaceChar l

/-- Sentence terminator characters of the extractSentence split regex. -/
def isSentTerm (c : Char) : Bool := c = '.' || c = '!' || c = '?'

/-- text.split on the sentence-terminator regex (one-or-more of . ! ?). -/
def splitSentences (l : Chars) : List Chars := splitOnRuns isSentTerm l

/-! ### Prefix parsers: building blocks for the concrete regexes

A `P` consumes a prefix of the remaining input and reports how many
characters it consumed.  Alternations are tried in the order of the source
regex; where alternatives can overlap, the continuation is placed inside
each alternative so that the combinator reproduces the backtracking of the
regex engine. -/

/-- A prefix parser: remaining input to (rest, consumed count). -/
abbrev P := Chars → Option (Chars × Nat)

/-- Literal match under a character comparison. -/
def litCore (eq : Char → Char → Bool) : Chars → P
  | [], rest => some (rest, 0)
  | _ :: _, [] => none
  | w :: ws, c :: rest =>
    if eq w c then (litCore eq ws rest).map (fun pr => (pr.1, pr.2 + 1)) else none

/-- Case-insensitive literal (the library regexes carry the i flag). -/
def litCI (w : Chars) : P := litCore (fun a b => lowerC a = lowerC b) w

/-- Case-sensitive literal (the heuristic regexes carry no i flag). -/
def litCS (w : Chars) : P := litCore (fun a b => a = b) w

/-- Sequencing of two prefix parsers. -/
def seqP (p q : P) : P := fun rest =>
  match p rest with
  | none => none
  | some (r1, n1) =>
    match q r1 with
    | none => none
    | some (r2, n2) => some (r2, n1 + n2)

/-- Ordered alternation, first success wins (regex alternation order). -/
def altP : List P → P
  | [] => fun _ => none
  | p :: ps => fun rest => ((p rest).orElse (fun _ => altP ps rest))

/-- Greedy run of characters satisfying a class.  The regexes only use a
greedy run where the following regex element cannot match a character of
the class, so consuming the maximal run is exact. -/
def takeWhileP (good : Char → Bool) (atLeastOne : Bool) : P := fun rest =>
  let run := rest.takeWhile good
  if atLeastOne && run.isEmpty then none
  else some (rest.drop run.length, run.length)

/-- backslash-s-plus. -/
def wsPlus : P := takeWhileP isSpaceChar true

/-- backslash-s-star. -/
def wsStar : P := takeWhileP isSpaceChar false

/-- backslash-w-plus. -/
def wordPlus : P := takeWhileP isWordChar true

/-- backslash-w-star. -/
def wordStar : P := takeWhileP isWordChar false

/-- Trailing backslash-b after a word character: next char absent or non-word. -/
def boundaryAfter : P := fun rest =>
  match rest with
  | [] => some ([], 0)
  | c :: _ => if isWordChar c then none else some (rest, 0)

/-- Greedy optional group.  Used only for groups (such as the-plus-space in
the door regex) whose failure modes make backtracking into the group
unnecessary. -/
def optSeq (p : P) : P := fun rest => ((p rest).orElse (fun _ => some (rest, 0)))

/-- Alternation of whole words, each with a trailing word boundary
(the continuation sits inside each alternative, like regex backtracking). -/
def wordAltCI (ws : List Chars) : P :=
  altP (ws.map fun w => seqP (litCI w) boundaryAfter)

/-- Case-sensitive variant of the word alternation. -/
def wordAltCS (ws : List Chars) : P :=
  altP (ws.map fun w => seqP (litCS w) boundaryAfter)

/-- backslash-w-plus followed by a literal suffix at a word-run end, e.g. the
source regex for a past-tense-shaped word: consume the maximal word run and
require that it is long enough and ends with the given (case-sensitive)
suffix; the run end is automatically a word boundary. -/
def runSuffixP (suffix : Chars) (minLen : Nat) : P := fun rest =>
  match wordPlus rest with
  | none => none
  | some (r, n) =>
    if minLen ≤ n && (rest.take n).drop (n - suffix.length) = suffix then
      some (r, n)
    else none

/-- The negation-phrase shape shared by the exclusion regexes:
neg-word, whitespace, zero to two word-plus-whitespace groups (greedy, so
tried with two, then one, then zero repetitions), then a stem prefix. -/
def negPhraseP (negs : List Chars) (stems : List Chars) : P :=
  let stemsP := altP (stems.map litCI)
  let wws := seqP wordPlus wsPlus
  seqP (altP (negs.map litCI))
    (seqP wsPlus (altP [seqP (seqP wws wws) stemsP, seqP wws stemsP, stemsP]))

/-- Quoted-segment parser for the dialogue regexes of the shape
quote, non-quote characters, token, non-quote characters, quote: the closing
quote is necessarily the next quote of the text, and the segment between the
quotes must satisfy the inner test. -/
def quoteSegP (inner : Chars → Bool) : P := fun rest =>
  match rest with
  | '"' :: afterOpen =>
    let seg := afterOpen.takeWhile (fun c => c ≠ '"')
    match afterOpen.drop seg.length with
    | '"' :: afterClose =>
      if inner seg then some (afterClose, seg.length + 2) else none
    | _ => none
  | _ => none

/-- Index of the last occurrence of a character. -/
def lastIdxOf (c : Char) : Chars → Option Nat
  | [] => none
  | x :: rest =>
    match lastIdxOf c rest with
    | some i => some (i + 1)
    | none => if x = c then some 0 else none

/-- Contiguous run of at least two ha and he units, the inner core of the
laugh dialogue regex (applied to a lower-cased segment). -/
def hasHaRun : Chars → Bool
  | c1 :: c2 :: c3 :: c4 :: rest =>
    (c1 = 'h' && (c2 = 'a' || c2 = 'e') && c3 = 'h' && (c4 = 'a' || c4 = 'e')) ||
      hasHaRun (c2 :: c3 :: c4 :: rest)
  | _ => false

/-! ### Matchers: RegExp objects with g-flag exec and test semantics -/

/-- A matcher takes the text and a start position (the lastIndex of the
regex object) and returns the earliest match at or after it, as the pair of
its start index and end index. -/
abbrev Matcher := Chars → Nat → Option (Nat × Nat)

/-- Word boundary before the current position.  All boundary-prefixed
patterns here begin with a word character, for which the JS condition is
exactly: no previous character, or a non-word previous character. -/
def bpOk (prev : Option Char) : Bool :=
  match prev with
  | none => true
  | some c => !isWordChar c

/-- Scan for the earliest position at or after the start position where the
prefix parser succeeds (with the word-boundary precondition when the regex
starts with backslash-b). -/
def scanGo (requireB : Bool) (p : P) (li : Nat) (prev : Option Char)
    (rest : Chars) (pos : Nat) : Option (Nat × Nat) :=
  match (if li ≤ pos && (!requireB || bpOk prev) then
           (p rest).map (fun pr => (pos, pos + pr.2))
         else none) with
  | some r => some r
  | none =>
    match rest with
    | [] => none
    | c :: rs => scanGo requireB p li (some c) rs (pos + 1)

/-- Build a matcher from a prefix parser. -/
def runMatcher (requireB : Bool) (p : P) : Matcher :=
  fun text li => scanGo requireB p li none text 0

/-- RegExp.exec with the g flag: search from lastIndex; on success the new
lastIndex is the match end, on failure it is reset to 0.  RegExp.test has
the same state behaviour. -/
def execR (m : Matcher) (text : Chars) (li : Nat) : Option (Nat × Nat) × Nat :=
  match m text li with
  | some (i, e) => (some (i, e), e)
  | none => (none, 0)

/-! ### The sound library (src/index.js lines 39 to 129, identical in the
part_000 near-duplicate except that it omits the rustle entry; the claims
cite the index.js catalog, which is the one embedded here). -/

/-- Pattern kind, the context field of a library pattern. -/
inductive PKind
  | action
  | dialogue
  | ambient
  | direct
deriving DecidableEq

/-- A trigger pattern of the library: its regex and its context kind. -/
structure TPattern where
  regex : Matcher
  context : PKind

/-- Sound categories, in catalog source order. -/
inductive Category
  | emotions
  | actions
  | ambient
  | dialogue
deriving DecidableEq

/-- Sound keys of the catalog. -/
inductive SoundKey
  | laugh
  | cry
  | sigh
  | footsteps
  | door
  | rustle
  | wind
  | rain
  | whisper
  | shout
deriving DecidableEq

/-- The JS string of a sound key. -/
def keyString : SoundKey → Chars
  | .laugh => cs "laugh"
  | .cry => cs "cry"
  | .sigh => cs "sigh"
  | .footsteps => cs "footsteps"
  | .door => cs "door"
  | .rustle => cs "rustle"
  | .wind => cs "wind"
  | .rain => cs "rain"
  | .whisper => cs "whisper"
  | .shout => cs "shout"

/-- A sound definition: variations, trigger patterns, exclusion patterns
(an absent excludePatterns property is the empty list; the source guards
the exclusion loop with an existence check, which for an empty list is the
same as running the loop zero times). -/
structure SoundDef where
  variations : List Chars
  patterns : List TPattern
  excludePatterns : List Matcher

/-- laugh trigger 1: past or progressive laugh words, whole words. -/
def laughRe1 : Matcher := runMatcher true (wordAltCI
  [cs "laughed", cs "laughing", cs "giggles", cs "giggle", cs "giggling",
   cs "chuckles", cs "chuckle", cs "chuckling"])

/-- laugh trigger 2: direct interjections. -/
def laughRe2 : Matcher := runMatcher true (wordAltCI [cs "haha", cs "hehe", cs "lol"])

/-- laugh trigger 3: quoted segment containing a contiguous ha or he run of
length at least two units. -/
def laughRe3 : Matcher := runMatcher false (quoteSegP (fun seg => hasHaRun (lowerL seg)))

/-- The negation word of the exclusion regexes, written with its apostrophe. -/
def dontW : Chars := ['d', 'o', 'n', apoC, 't']

/-- laugh exclusion 1: negation word, up to two intervening words, laugh stem. -/
def laughExclude1 : Matcher := runMatcher true (negPhraseP
  [dontW, cs "stop", cs "quit", cs "without", cs "no", cs "never"]
  [cs "laugh", cs "giggl", cs "chuckl"])

/-- laugh exclusion 2: laugh stem plus word characters, whitespace, then the
word at, about or over. -/
def laughExclude2 : Matcher := runMatcher true (seqP
  (altP [litCI (cs "laugh"), litCI (cs "giggl"), litCI (cs "chuckl")])
  (seqP wordStar (seqP wsPlus (wordAltCI [cs "at", cs "about", cs "over"]))))

/-- cry trigger 1: cry verb forms or a tears phrase, no trailing boundary. -/
def cryRe1 : Matcher := runMatcher true (altP
  [litCI (cs "cried"), litCI (cs "crying"), litCI (cs "sobbed"),
   litCI (cs "sobbing"), litCI (cs "wept"), litCI (cs "weeping"),
   seqP (altP [litCI (cs "tears"), litCI (cs "tear")])
     (seqP wsPlus (altP [litCI (cs "fell"), litCI (cs "stream"), litCI (cs "flow")]))])

/-- cry trigger 2: quoted segment containing a sniff or sob stage direction,
then anything up to a final quote (the dot-star may cross quotes, so the
match ends at the last quote of the text). -/
def cryRe2 : Matcher := runMatcher false (fun rest =>
  match rest with
  | '"' :: afterOpen =>
    let seg := afterOpen.takeWhile (fun c => c ≠ '"')
    if containsSub (cs "*sniff*") (lowerL seg) || containsSub (cs "*sob*") (lowerL seg) then
      match lastIdxOf '"' afterOpen with
      | some i => some (afterOpen.drop (i + 1), i + 2)
      | none => none
    else none
  | _ => none)

/-- cry exclusion: negation word, up to two intervening words, cry stem. -/
def cryExclude1 : Matcher := runMatcher true (negPhraseP
  [dontW, cs "stop", cs "quit", cs "without", cs "no"]
  [cs "cry", cs "sob", cs "weep"])

/-- sigh trigger 1. -/
def sighRe1 : Matcher := runMatcher true (wordAltCI [cs "sighed", cs "sighing"])

/-- sigh trigger 2: quoted segment containing a sigh stage direction. -/
def sighRe2 : Matcher := runMatcher false
  (quoteSegP (fun seg => containsSub (cs "*sigh*") (lowerL seg)))

/-- footsteps trigger 1: movement verbs, whole words. -/
def footstepsRe1 : Matcher := runMatcher true (wordAltCI
  [cs "walked", cs "walking", cs "stepped", cs "stepping",
   cs "strolled", cs "strolling", cs "paced", cs "pacing"])

/-- footsteps trigger 2: the word footstep or footsteps. -/
def footstepsRe2 : Matcher := runMatcher true (wordAltCI [cs "footsteps", cs "footstep"])

/-- footsteps exclusion: stop word, up to two intervening words, movement stem. -/
def footstepsExclude1 : Matcher := runMatcher true (negPhraseP
  [cs "stopped", cs "quit", cs "ceased"]
  [cs "walk", cs "step", cs "stroll", cs "pac"])

/-- door trigger 1: door verb, whitespace, optional the, the word door. -/
def doorRe1 : Matcher := runMatcher true (seqP
  (altP [litCI (cs "opened"), litCI (cs "closed"), litCI (cs "shut"), litCI (cs "slammed")])
  (seqP wsPlus (seqP (optSeq (seqP (litCI (cs "the")) wsPlus))
    (seqP (litCI (cs "door")) boundaryAfter))))

/-- door trigger 2: the word door then a door verb. -/
def doorRe2 : Matcher := runMatcher true (seqP (litCI (cs "door"))
  (seqP wsPlus (wordAltCI [cs "opened", cs "closed", cs "creaked", cs "slammed"])))

/-- rustle trigger 1: rustle or grab verb, whitespace, then for, into or through. -/
def rustleRe1 : Matcher := runMatcher true (seqP
  (altP [litCI (cs "rustled"), litCI (cs "rustling"), litCI (cs "grabbed"),
         litCI (cs "grabbing"), litCI (cs "reached"), litCI (cs "reaching")])
  (seqP wsPlus (altP [litCI (cs "for"), litCI (cs "into"), litCI (cs "through")])))

/-- rustle trigger 2: rustl followed by at least one word character. -/
def rustleRe2 : Matcher := runMatcher true (seqP (litCI (cs "rustl")) wordPlus)

/-- wind trigger 1: the word wind then a wind verb, no trailing boundary. -/
def windRe1 : Matcher := runMatcher true (seqP (litCI (cs "wind"))
  (seqP wsPlus (altP [litCI (cs "blew"), litCI (cs "howled"),
                      litCI (cs "whistled"), litCI (cs "rustled")])))

/-- wind trigger 2: an adjective then the word breeze or wind. -/
def windRe2 : Matcher := runMatcher true (seqP
  (altP [litCI (cs "gentle"), litCI (cs "strong"), litCI (cs "cold")])
  (seqP wsPlus (wordAltCI [cs "breeze", cs "wind"])))

/-- rain trigger 1: the word rain then a rain verb, no trailing boundary. -/
def rainRe1 : Matcher := runMatcher true (seqP (litCI (cs "rain"))
  (seqP wsPlus (altP [litCI (cs "fell"), litCI (cs "pattered"),
                      litCI (cs "drummed"), litCI (cs "began")])))

/-- rain trigger 2: raindrop words, downpour, or drizzl plus word characters. -/
def rainRe2 : Matcher := runMatcher true (altP
  [seqP (litCI (cs "raindrops")) boundaryAfter,
   seqP (litCI (cs "raindrop")) boundaryAfter,
   seqP (litCI (cs "downpour")) boundaryAfter,
   seqP (litCI (cs "drizzl")) (seqP wordPlus boundaryAfter)])

/-- whisper trigger 1. -/
def whisperRe1 : Matcher := runMatcher true (wordAltCI [cs "whispered", cs "whispering"])

/-- whisper trigger 2: a quote pair, optional whitespace, pronoun, whitespace,
the word whispered. -/
def whisperRe2 : Matcher := runMatcher false (seqP (quoteSegP (fun _ => true))
  (seqP wsStar (altP ([cs "she", cs "he", cs "they"].map fun w =>
    seqP (litCI w) (seqP wsPlus (litCI (cs "whispered")))))))

/-- shout trigger 1: shout verbs including the two-word called out. -/
def shoutRe1 : Matcher := runMatcher true (altP
  [seqP (litCI (cs "shouted")) boundaryAfter,
   seqP (litCI (cs "yelled")) boundaryAfter,
   seqP (litCI (cs "screamed")) boundaryAfter,
   seqP (litCI (cs "called out")) boundaryAfter])

/-- shout trigger 2: quoted segment containing at least two contiguous
exclamation marks. -/
def shoutRe2 : Matcher := runMatcher false (quoteSegP (fun seg => containsSub (cs "!!") seg))

/-- The full catalog, in source order. -/
def soundLibrary : List (Category × List (SoundKey × SoundDef)) :=
  [(.emotions,
    [(.laugh,
      { variations := [cs "laugh1.mp3", cs "giggle.mp3", cs "chuckle.mp3"],
        patterns := [⟨laughRe1, .action⟩, ⟨laughRe2, .direct⟩, ⟨laughRe3, .dialogue⟩],
        excludePatterns := [laughExclude1, laughExclude2] }),
     (.cry,
      { variations := [cs "cry1.mp3", cs "sob.mp3", cs "weep.mp3"],
        patterns := [⟨cryRe1, .action⟩, ⟨cryRe2, .dialogue⟩],
        excludePatterns := [cryExclude1] }),
     (.sigh,
      { variations := [cs "sigh1.mp3", cs "exhale.mp3"],
        patterns := [⟨sighRe1, .action⟩, ⟨sighRe2, .dialogue⟩],
        excludePatterns := [] })]),
   (.actions,
    [(.footsteps,
      { variations := [cs "step1.mp3", cs "step2.mp3", cs "footsteps.mp3"],
        patterns := [⟨footstepsRe1, .action⟩, ⟨footstepsRe2, .direct⟩],
        excludePatterns := [footstepsExclude1] }),
     (.door,
      { variations := [cs "door_open.mp3", cs "door_close.mp3", cs "door_creak.mp3"],
        patterns := [⟨doorRe1, .action⟩, ⟨doorRe2, .action⟩],
        excludePatterns := [] }),
     (.rustle,
      { variations := [cs "rustle1.mp3", cs "paper_rustle.mp3", cs "cloth_rustle.mp3"],
        patterns := [⟨rustleRe1, .action⟩, ⟨rustleRe2, .direct⟩],
        excludePatterns := [] })]),
   (.ambient,
    [(.wind,
      { variations := [cs "wind1.mp3", cs "breeze.mp3"],
        patterns := [⟨windRe1, .ambient⟩, ⟨windRe2, .ambient⟩],
        excludePatterns := [] }),
     (.rain,
      { variations := [cs "rain_light.mp3", cs "rain_heavy.mp3"],
        patterns := [⟨rainRe1, .ambient⟩, ⟨rainRe2, .ambient⟩],
        excludePatterns := [] })]),
   (.dialogue,
    [(.whisper,
      { variations := [cs "whisper1.mp3", cs "whisper_soft.mp3"],
        patterns := [⟨whisperRe1, .dialogue⟩, ⟨whisperRe2, .dialogue⟩],
        excludePatterns := [] }),
     (.shout,
      { variations := [cs "shout1.mp3", cs "yell.mp3"],
        patterns := [⟨shoutRe1, .dialogue⟩, ⟨shoutRe2, .dialogue⟩],
        excludePatterns := [] })])]

/-- Association-list lookup (JS object property access for our fixed keys). -/
def lookupA [DecidableEq κ] : List (κ × α) → κ → Option α
  | [], _ => none
  | (k, v) :: rest, key => if k = key then some v else lookupA rest key

/-- Association-list update-or-append, the semantics of Map.set. -/
def setA [DecidableEq κ] : List (κ × α) → κ → α → List (κ × α)
  | [], key, v => [(key, v)]
  | (k, w) :: rest, key, v =>
    if k = key then (k, v) :: rest else (k, w) :: setA rest key v

/-- Sound lookup inside a category list. -/
def libLookup (cat : Category) (key : SoundKey) : Option SoundDef :=
  match lookupA soundLibrary cat with
  | none => none
  | some sounds => lookupA sounds key

/-- getCategoryForSound (part_000 lines 628 to 635, called but not defined
in index.js): first category whose sound map contains the key. -/
def getCategoryForSound (key : SoundKey) : Option Category :=
  match soundLibrary.find? (fun p => (lookupA p.2 key).isSome) with
  | some p => some p.1
  | none => none

/-! ### Context Extractor (index.js lines 226 to 255) -/

/-- The loop of extractSentence: walk the split pieces accumulating
positions (each piece is assumed followed by one terminator character, a
known inaccuracy of the source when terminators repeat), returning the
trimmed piece whose span covers the position. -/
def sentenceLoop : List Chars → Nat → Nat → Chars
  | [], _, _ => []
  | s :: rest, currentPos, position =>
    if position < currentPos + s.length then jsTrim s
    else sentenceLoop rest (currentPos + s.length + 1) position

/-- extractSentence: split on sentence terminators and select the piece
containing the match position (empty string when none does). -/
def extractSentence (text : Chars) (position : Nat) : Chars :=
  sentenceLoop (splitSentences text) 0 position

/-- The anchor-search loop of getSurroundingWords: the first index whose
running start position already exceeds the match position; the check runs
before the current word is added, and when the loop never breaks the
initial index 0 is kept. -/
def findWordIndex : List Chars → Nat → Nat → Nat → Option Nat
  | [], _, _, _ => none
  | w :: rest, position, currentPos, i =>
    if position < currentPos then some i
    else findWordIndex rest position (currentPos + w.length + 1) (i + 1)

/-- Join words with single spaces (Array.prototype.join). -/
def joinSp (ws : List Chars) : Chars := (List.intersperse (cs " ") ws).flatten

/-- getSurroundingWords: whitespace-split words, anchor index from the
cumulative scan (0 when the scan never breaks), then the window around the
anchor clamped to the array bounds. -/
def getSurroundingWords (text : Chars) (position : Nat) (wordCount : Nat) : Chars :=
  let words := splitWs text
  let wordIndex := (findWordIndex words position 0 0).getD 0
  let start := wordIndex - wordCount
  let stop := min words.length (wordIndex + wordCount)
  joinSp ((words.take stop).drop start)

/-! ### Heuristic scoring (index.js lines 257 to 316) -/

/-- MatchContext built per analysis call. -/
structure Ctx where
  sentence : Chars
  surrounding : Chars
  position : ℚ
  matched : Chars
deriving DecidableEq

/-- A past-tense-shaped word: a word run of length at least three ending in
the lower-case letters e d. -/
def edWordIn (l : Chars) : Bool :=
  ((runMatcher true (runSuffixP (cs "ed") 3)) l 0).isSome

/-- A present-participle-shaped word: a word run of length at least four
ending in the lower-case letters i n g. -/
def ingWordIn (l : Chars) : Bool :=
  ((runMatcher true (runSuffixP (cs "ing") 4)) l 0).isSome

/-- The pronoun-attribution regex: lower-case she, he, they or capital I,
whitespace, then a past-tense-shaped word (case-sensitive, no i flag). -/
def pronounEdIn (l : Chars) : Bool :=
  ((runMatcher true (altP ([cs "she", cs "he", cs "they", cs "I"].map fun w =>
    seqP (litCS w) (seqP wsPlus (runSuffixP (cs "ed") 3))))) l 0).isSome

/-- analyzeActionContext: past-tense bonus, participle bonus, attribution bonus. -/
def analyzeActionContext (context : Ctx) : ℚ :=
  (if edWordIn context.sentence then (2 : ℚ)/10 else 0) +
  (if ingWordIn context.sentence then (1 : ℚ)/10 else 0) +
  (if pronounEdIn context.sentence then (15 : ℚ)/100 else 0)

/-- The dialogue-tag regex (case-sensitive, whole words). -/
def dialogueTagIn (l : Chars) : Bool :=
  ((runMatcher true (wordAltCS
    [cs "said", cs "whispered", cs "shouted", cs "asked", cs "replied"])) l 0).isSome

/-- analyzeDialogueContext: quotation bonus and speech-attribution bonus. -/
def analyzeDialogueContext (context : Ctx) : ℚ :=
  (if context.sentence.contains '"' then (2 : ℚ)/10 else 0) +
  (if dialogueTagIn context.sentence then (15 : ℚ)/100 else 0)

/-- The environment-word regex (case-sensitive, whole words), tested on the
surrounding window. -/
def ambientWordIn (l : Chars) : Bool :=
  ((runMatcher true (wordAltCS
    [cs "outside", cs "air", cs "atmosphere", cs "environment", cs "weather"])) l 0).isSome

/-- analyzeAmbientContext. -/
def analyzeAmbientContext (context : Ctx) : ℚ :=
  if ambientWordIn context.surrounding then (2 : ℚ)/10 else 0

/-- analyzeTemporalContext: the source returns 0 unconditionally. -/
def analyzeTemporalContext (_context : Ctx) : ℚ := 0

/-- Sentiment word lists of the ContextAnalyzer constructor. -/
def positiveWords : List Chars :=
  [cs "happy", cs "joy", cs "cheerful", cs "delighted", cs "pleased", cs "content"]

/-- Negative sentiment words. -/
def negativeWords : List Chars :=
  [cs "sad", cs "angry", cs "frustrated", cs "disappointed", cs "upset", cs "annoyed"]

/-- analyzeSentiment: substring containment of a sentiment word in the
lower-cased sentence, keyed on whether the sound key contains laugh or
giggle (positive) else cry or sob (negative). -/
def analyzeSentiment (context : Ctx) (soundKey : SoundKey) : ℚ :=
  let sentence := lowerL context.sentence
  let k := keyString soundKey
  if containsSub (cs "laugh") k || containsSub (cs "giggle") k then
    if positiveWords.any (fun w => containsSub w sentence) then (1 : ℚ)/10 else 0
  else if containsSub (cs "cry") k || containsSub (cs "sob") k then
    if negativeWords.any (fun w => containsSub w sentence) then (1 : ℚ)/10 else 0
  else 0

/-! ### Oracle path (index.js lines 318 to 416) -/

/-- Outcome of the external generateQuietPrompt call: either the promise
rejected (or timed out with a rejection), or it resolved with a response
string. -/
inductive OracleCall
  | threw
  | returned (resp : Chars)

/-- parseAIResponse (index.js lines 399 to 416): extract the first match of
the score regex (alternatives, in order: 0 dot digits, 1 dot zeros, the
word 0, the word 1, each with a leading word boundary), parse it, and keep
it if within the unit interval; otherwise null. -/
def parseAIResponse (response : Chars) : Option ℚ :=
  let digits : Char → Bool := fun c => '0' ≤ c && c ≤ '9'
  let m := (runMatcher true (altP
    [seqP (litCS (cs "0.")) (takeWhileP digits true),
     seqP (litCS (cs "1.")) (takeWhileP (fun c => c = '0') true),
     seqP (litCS (cs "0")) boundaryAfter,
     seqP (litCS (cs "1")) boundaryAfter])) response 0
  match m with
  | none => none
  | some (i, e) =>
    let tok := (response.drop i).take (e - i)
    let intPart : ℚ := if tok.head? = some '1' then 1 else 0
    let fracDigits := (tok.drop 2).takeWhile digits
    let fracVal : ℚ :=
      (fracDigits.foldl (fun acc c => acc * 10 + (c.toNat - 48)) 0 : ℤ) /
        ((10 : ℚ) ^ fracDigits.length)
    let score := intPart + (if tok.length ≥ 2 then fracVal else 0)
    if 0 ≤ score && score ≤ 1 then some score else none

/-- The session cache of analyzeWithAI, a Map in insertion order whose
values may be a parsed score or null. -/
abbrev AiCache := List (Chars × Option ℚ)

/-- Cache key: sound key, colon, first 50 characters of the sentence. -/
def mkCacheKey (soundKey : SoundKey) (sentence : Chars) : Chars :=
  keyString soundKey ++ (':' :: sentence.take 50)

/-- analyzeWithAI (index.js lines 318 to 352): serve a cached value (which
may be null) without calling out; otherwise call the oracle inside a
try-catch that converts a rejection into null without touching the cache;
a resolved response is parsed, the result (possibly null) is cached, and
the cache is bounded to 100 entries by evicting the oldest. -/
def analyzeWithAI (cache : AiCache) (cacheKey : Chars) (oc : OracleCall) :
    Option ℚ × AiCache :=
  match lookupA cache cacheKey with
  | some v => (v, cache)
  | none =>
    match oc with
    | .threw => (none, cache)
    | .returned resp =>
      let score := parseAIResponse resp
      let c := setA cache cacheKey score
      let c := if 100 < c.length then c.drop 1 else c
      (score, c)

/-! ### The Scorer: analyzeContext (index.js lines 152 to 224) -/

/-- Result reasons of an AnalysisResult. -/
inductive Reason
  | no_match
  | excluded_by_pattern
  | ai_analyzed
  | pattern_analyzed
deriving DecidableEq

/-- AnalysisResult: the score, the reason, and the context and matched text
fields present on the paths that set them. -/
structure AnalysisResult where
  score : ℚ
  reason : Reason
  context : Option Ctx
  matched : Option Chars
deriving DecidableEq

/-- Output of one analyzeContext call: the result together with the updated
lastIndex of the trigger regex, the updated lastIndexes of the exclusion
regexes, and the updated oracle cache. -/
structure AnalyzeOut where
  result : AnalysisResult
  li : Nat
  exLi : List Nat
  cache : AiCache
deriving DecidableEq

/-- The exclusion loop: test each exclusion pattern in order against the
sentence, returning at the first hit.  Each executed test updates that
regex object's lastIndex (match end on success, 0 on failure); patterns
after a hit are not executed and keep their state. -/
def exclLoop : List Matcher → List Nat → Chars → Bool × List Nat
  | [], lis, _ => (false, lis)
  | _ :: _, [], _ => (false, [])
  | m :: ms, li :: lis, sentence =>
    match execR m sentence li with
    | (some _, newLi) => (true, newLi :: lis)
    | (none, newLi) =>
      let r := exclLoop ms lis sentence
      (r.1, newLi :: r.2)

/-- analyzeContext.  Stateful inputs: the trigger pattern's lastIndex, the
exclusion patterns' lastIndexes, and the oracle cache.  The aiEnabled flag
is the constructor field aiAnalysisEnabled (always true in the source) and
useAi is the useAiAnalysis setting; the oracle call outcome is injected.
The try-catch around the oracle branch and inside analyzeWithAI make any
oracle rejection fall through to the heuristic. -/
def analyzeContext (aiEnabled useAi : Bool) (oc : OracleCall) (cache : AiCache)
    (text : Chars) (soundKey : SoundKey) (pattern : TPattern) (li : Nat)
    (excludePatterns : List Matcher) (exLi : List Nat) : AnalyzeOut :=
  match execR pattern.regex text li with
  | (none, newLi) => ⟨⟨0, .no_match, none, none⟩, newLi, exLi, cache⟩
  | (some (idx, e), newLi) =>
    let matched := (text.drop idx).take (e - idx)
    let context : Ctx :=
      { sentence := extractSentence text idx,
        surrounding := getSurroundingWords text idx 10,
        position := (idx : ℚ) / (text.length : ℚ),
        matched := matched }
    match exclLoop excludePatterns exLi context.sentence with
    | (true, newExLi) =>
      ⟨⟨0, .excluded_by_pattern, some context, none⟩, newLi, newExLi, cache⟩
    | (false, newExLi) =>
      let ai : Option ℚ × AiCache :=
        if aiEnabled && useAi then
          analyzeWithAI cache (mkCacheKey soundKey context.sentence) oc
        else (none, cache)
      match ai with
      | (some aiScore, newCache) =>
        ⟨⟨aiScore, .ai_analyzed, some context, some matched⟩, newLi, newExLi, newCache⟩
      | (none, newCache) =>
        let base : ℚ := (5 : ℚ)/10
        let kindBonus : ℚ :=
          match pattern.context with
          | .action => analyzeActionContext context
          | .dialogue => analyzeDialogueContext context
          | .ambient => analyzeAmbientContext context
          | .direct => (3 : ℚ)/10
        let score := base + kindBonus + analyzeTemporalContext context +
          analyzeSentiment context soundKey
        ⟨⟨max 0 (min 1 score), .pattern_analyzed, some context, some matched⟩,
          newLi, newExLi, newCache⟩

/-! ### Settings and extension state (index.js lines 17 to 36 and 131 to
138; defaults as in the part_000 near-duplicate lines 347 to 363, whose
useAiAnalysis default is false — the oracle-disabled configuration the
claims refer to; index.js defaults it to true). UI-only fields are not part
of the engine model. -/

/-- Per-category enable flags. -/
structure EnabledCategories where
  emotions : Bool
  actions : Bool
  ambient : Bool
  dialogue : Bool
deriving DecidableEq

/-- Flag of a category. -/
def EnabledCategories.get (e : EnabledCategories) : Category → Bool
  | .emotions => e.emotions
  | .actions => e.actions
  | .ambient => e.ambient
  | .dialogue => e.dialogue

/-- Engine-relevant settings. -/
structure Settings where
  enabled : Bool
  volume : ℚ
  maxConcurrentSounds : Nat
  preventRepeatMs : Int
  contextSensitivity : ℚ
  useAiAnalysis : Bool
  enabledCategories : EnabledCategories

/-- The defaults (oracle disabled). -/
def defaultSettings : Settings :=
  { enabled := true,
    volume := (7 : ℚ)/10,
    maxConcurrentSounds := 3,
    preventRepeatMs := 2000,
    contextSensitivity := (8 : ℚ)/10,
    useAiAnalysis := false,
    enabledCategories := ⟨true, true, true, true⟩ }

/-- Per-sound regex state: the lastIndex of each trigger pattern and of
each exclusion pattern, positionally. -/
structure SoundSt where
  patLi : List Nat
  exLi : List Nat
deriving DecidableEq

/-- Fresh regex state of a sound definition (all lastIndexes 0, the state
of the module-level regex objects at load time). -/
def freshSt (d : SoundDef) : SoundSt :=
  ⟨d.patterns.map (fun _ => 0), d.excludePatterns.map (fun _ => 0)⟩

/-- extensionState plus the regex state of the shared library regex objects
and the analyzer's oracle cache. -/
structure ExtensionState where
  audioBuffers : List Chars
  recentSounds : List (SoundKey × Int)
  isInitialized : Bool
  soundSt : List (SoundKey × SoundSt)
  aiCache : AiCache
deriving DecidableEq

/-- Regex state of a sound, fresh when never touched. -/
def getSoundSt (st : ExtensionState) (key : SoundKey) (d : SoundDef) : SoundSt :=
  (lookupA st.soundSt key).getD (freshSt d)

/-! ### Playback scheduler: playSound and processMessage

Embedded from the part_000 near-duplicate (lines 700 to 798), which is
index.js lines 481 to 579 with two slips of index.js repaired there: index.js
calls the async analyzeContext without await (so every analysis result is an
unresolved promise and no comparison ever succeeds) and calls the
getCategoryForSound method it never defines; the claims are settled against
the working near-duplicate semantics, with the oracle branch of index.js
available through the useAi flag. -/

/-- Outcome of one playSound call. -/
inductive PlayOutcome
  | notReady
  | categoryOff
  | noData
  | cooldown
  | scoreFail
  | bufferMissing
  | played
  | playFailed
deriving DecidableEq

/-- Accumulator of the pattern loop of playSound. -/
structure BestAcc where
  bestScore : ℚ
  bestMatch : Option AnalysisResult
  patLi : List Nat
  exLi : List Nat
  cache : AiCache

/-- The pattern loop: analyze every pattern of the sound (threading the
shared exclusion-regex state and cache through the calls), keeping the
highest score that also meets the sensitivity threshold. -/
def analyzeLoop (aiEnabled useAi : Bool) (oc : OracleCall) (text : Chars)
    (soundKey : SoundKey) (excludePatterns : List Matcher) (sens : ℚ) :
    List TPattern → List Nat → List Nat → AiCache → ℚ → Option AnalysisResult → BestAcc
  | [], _, exLi, cache, bestScore, bestMatch => ⟨bestScore, bestMatch, [], exLi, cache⟩
  | _ :: _, [], exLi, cache, bestScore, bestMatch => ⟨bestScore, bestMatch, [], exLi, cache⟩
  | p :: ps, li :: lis, exLi, cache, bestScore, bestMatch =>
    let o := analyzeContext aiEnabled useAi oc cache text soundKey p li excludePatterns exLi
    let keep := bestScore < o.result.score && sens ≤ o.result.score
    let newBest : ℚ := if keep then o.result.score else bestScore
    let newMatch := if keep then some o.result else bestMatch
    let r := analyzeLoop aiEnabled useAi oc text soundKey excludePatterns sens
      ps lis o.exLi o.cache newBest newMatch
    ⟨r.bestScore, r.bestMatch, o.li :: r.patLi, r.exLi, r.cache⟩

/-- Floor of a rational times a length, the variation index computation. -/
def ratFloorIdx (rand : ℚ) (len : Nat) : Nat := (rand * (len : ℚ)).floor.toNat

/-- playSound: early return when uninitialized or disabled; category lookup
and per-category flag; cooldown check against recentSounds (a missing entry
reads as 0); the pattern loop; threshold check; random variation selection
(an out-of-range index produces the JS string undefined in the audio key);
buffer presence check; and the playback attempt, whose success (the start
call not throwing) is injected as playbackOk — recentSounds is updated only
after a successful start. -/
def playSound (settings : Settings) (st : ExtensionState) (soundKey : SoundKey)
    (text : Chars) (now : Int) (rand : ℚ) (oc : OracleCall) (playbackOk : Bool) :
    PlayOutcome × Option Chars × ExtensionState :=
  if !st.isInitialized || !settings.enabled then (.notReady, none, st)
  else
    match getCategoryForSound soundKey with
    | none => (.categoryOff, none, st)
    | some category =>
      if !settings.enabledCategories.get category then (.categoryOff, none, st)
      else
        match libLookup category soundKey with
        | none => (.noData, none, st)
        | some soundData =>
          let lastPlayed : Int := (lookupA st.recentSounds soundKey).getD 0
          if now - lastPlayed < settings.preventRepeatMs then (.cooldown, none, st)
          else
            let s0 := getSoundSt st soundKey soundData
            let a := analyzeLoop true settings.useAiAnalysis oc text soundKey
              soundData.excludePatterns settings.contextSensitivity
              soundData.patterns s0.patLi s0.exLi st.aiCache 0 none
            let st1 : ExtensionState :=
              { st with soundSt := setA st.soundSt soundKey ⟨a.patLi, a.exLi⟩,
                        aiCache := a.cache }
            if a.bestMatch.isNone || a.bestScore < settings.contextSensitivity then
              (.scoreFail, none, st1)
            else
              let variations := soundData.variations
              let idx := ratFloorIdx rand variations.length
              let selected := (variations.get? idx).getD (cs "undefined")
              let audioKey := keyString soundKey ++ ('_' :: selected)
              if !(st1.audioBuffers.contains audioKey) then (.bufferMissing, none, st1)
              else if playbackOk then
                (.played, some audioKey,
                  { st1 with recentSounds := setA st1.recentSounds soundKey now })
              else (.playFailed, some audioKey, st1)

/-- The pre-test loop of processMessage: test the patterns of a sound in
order, stopping at the first hit; every executed test updates that regex
object's lastIndex. -/
def preTest : List TPattern → List Nat → Chars → Bool × List Nat
  | [], lis, _ => (false, lis)
  | _ :: _, [], _ => (false, [])
  | p :: ps, li :: lis, text =>
    match execR p.regex text li with
    | (some _, newLi) => (true, newLi :: lis)
    | (none, newLi) =>
      let r := preTest ps lis text
      (r.1, newLi :: r.2)

/-- Output of processMessage.  scheduled are the sounds whose pre-test hit
(each of which had its playSound call started, in catalog order); awaited
is the promise array after the splice to maxConcurrentSounds — the splice
removes promises from the array that Promise.allSettled receives but does
not cancel the already-started calls, so the playback effects of every
scheduled sound happen regardless; dispatched are the scheduled sounds
whose playSound reached a successful start. -/
structure ProcessOut where
  scheduled : List SoundKey
  awaited : List SoundKey
  dispatched : List SoundKey
  state : ExtensionState

/-- Inner scheduling loop over the sounds of one category: run the
stateful pre-test of each sound and start its playSound call on a hit. -/
def soundsLoop (settings : Settings) (text : Chars) (now : Int)
    (rands : SoundKey → ℚ) (oc : OracleCall) (playbackOk : Bool) :
    List (SoundKey × SoundDef) → ExtensionState →
    List (SoundKey × PlayOutcome) × ExtensionState
  | [], st => ([], st)
  | (key, soundData) :: rest, st =>
    let s0 := getSoundSt st key soundData
    let pt := preTest soundData.patterns s0.patLi text
    let st1 : ExtensionState :=
      { st with soundSt := setA st.soundSt key ⟨pt.2, s0.exLi⟩ }
    if pt.1 then
      let play := playSound settings st1 key text now (rands key) oc playbackOk
      let tail := soundsLoop settings text now rands oc playbackOk rest play.2.2
      ((key, play.1) :: tail.1, tail.2)
    else
      soundsLoop settings text now rands oc playbackOk rest st1

/-- The scheduling loop over the catalog in source order. -/
def processLoop (settings : Settings) (text : Chars) (now : Int)
    (rands : SoundKey → ℚ) (oc : OracleCall) (playbackOk : Bool) :
    List (Category × List (SoundKey × SoundDef)) → ExtensionState →
    List (SoundKey × PlayOutcome) × ExtensionState
  | [], st => ([], st)
  | (category, sounds) :: rest, st =>
    if !settings.enabledCategories.get category then
      processLoop settings text now rands oc playbackOk rest st
    else
      let step := soundsLoop settings text now rands oc playbackOk sounds st
      let tail := processLoop settings text now rands oc playbackOk rest step.2
      (step.1 ++ tail.1, tail.2)

/-- processMessage (part_000 lines 773 to 798, identical in index.js lines
554 to 579): schedule one playSound per sound whose first matching pattern
passes the stateful pre-test, then splice the promise array down to
maxConcurrentSounds and await what remains.  The calls in the spliced-off
tail have already started and still run to completion. -/
def processMessage (settings : Settings) (st : ExtensionState) (text : Chars)
    (now : Int) (rands : SoundKey → ℚ) (oc : OracleCall) (playbackOk : Bool) :
    ProcessOut :=
  if text.isEmpty || !st.isInitialized then ⟨[], [], [], st⟩
  else
    let r := processLoop settings text now rands oc playbackOk soundLibrary st
    let scheduled := r.1.map Prod.fst
    { scheduled := scheduled,
      awaited := scheduled.take settings.maxConcurrentSounds,
      dispatched := (r.1.filter (fun p => p.2 = .played)).map Prod.fst,
      state := r.2 }

/-- The audio keys loaded by loadDefaultSounds when every fetch succeeds:
one buffer per sound and variation of every enabled category. -/
def loadedBuffers : List Chars :=
  soundLibrary.flatMap (fun c => c.2.flatMap (fun s =>
    s.2.variations.map (fun v => keyString s.1 ++ ('_' :: v))))

/-- State after a successful initialize with all buffers loaded and no
sound played yet: all regex objects fresh. -/
def initializedState : ExtensionState :=
  { audioBuffers := loadedBuffers,
    recentSounds := [],
    isInitialized := true,
    soundSt := [],
    aiCache := [] }

/-! ### The variant-B engine of src/unnamed/part_000 (lines 1 to 334):
chooseVariant, the variation picker the claims about non-repetition cite. -/

/-- The expression lastVariantIndex of action or minus one: JS applies the
logical-or to the stored index, and 0 is falsy, so a stored 0 is replaced
by minus one just like an absent entry. -/
def jsLastOr (lastIdx : Option Nat) : Int :=
  match lastIdx with
  | none => -1
  | some 0 => -1
  | some n => (n : Int)

/-- chooseVariant (part_000 lines 191 to 201): pick a random index; when
the list has more than one entry and the index equals the stored-or-minus-one
value, step to the next index cyclically; store and return the pick. -/
def chooseVariant (list : List Chars) (lastIdx : Option Nat) (rand : ℚ) :
    Option (Chars × Nat) :=
  if list.isEmpty then none
  else
    let len := list.length
    let idx0 := ratFloorIdx rand len
    let idx := if 1 < len && (idx0 : Int) = jsLastOr lastIdx then (idx0 + 1) % len else idx0
    some ((list.get? idx).getD (cs "undefined"), idx)

/-! ### Concrete inputs and derived definitions used by the claims -/

/-- The scenario text of the spec (also the test-button text of the source). -/
def textScenario : Chars := cs "She laughed at the joke and walked to the door."

/-- A message in which four catalog sounds each have their trigger word
twice (so the analysis exec, resuming after the stateful pre-test, still
finds a match). -/
def textDoubled : Chars :=
  cs "he laughed and laughed, sobbed and sobbed, sighed and sighed, stepped and stepped."

/-- A message with two occurrences of the laugh trigger inside a phrase the
second exclusion pattern matches. -/
def textRepeated : Chars := cs "She was laughing and laughing at me."

/-- The reference-use scenario text of the spec. -/
def textReference : Chars := cs "You have a nice laugh."

/-- A minimal trigger-matching, non-excluded text. -/
def textSighed : Chars := cs "He sighed."

/-- The first laugh pattern object. -/
def laughPattern1 : TPattern := ⟨laughRe1, .action⟩

/-- The first footsteps pattern object. -/
def footstepsPattern1 : TPattern := ⟨footstepsRe1, .action⟩

/-- The first door pattern object. -/
def doorPattern1 : TPattern := ⟨doorRe1, .action⟩

/-- The second door pattern object. -/
def doorPattern2 : TPattern := ⟨doorRe2, .action⟩

/-- The first sigh pattern object. -/
def sighPattern1 : TPattern := ⟨sighRe1, .action⟩

/-- The exclusion patterns of the laugh sound. -/
def laughExcludes : List Matcher := [laughExclude1, laughExclude2]

/-- First invocation of the Scorer on the repeated-trigger text with all
regex objects fresh (oracle disabled). -/
def statefulFirst : AnalyzeOut :=
  analyzeContext true false .threw [] textRepeated .laugh laughPattern1 0 laughExcludes [0, 0]

/-- Second invocation with identical arguments: same text, same sound key,
same pattern object — whose lastIndex, like those of the shared exclusion
regex objects, was mutated by the first invocation. -/
def statefulSecond : AnalyzeOut :=
  analyzeContext true false .threw [] textRepeated .laugh laughPattern1
    statefulFirst.li laughExcludes statefulFirst.exLi

/-- The cumulative character span the anchor loop of getSurroundingWords
accumulates: every word length plus one. -/
def cumSpan (ws : List Chars) : Nat := (ws.map (fun w => w.length + 1)).sum

/-- An oracle interaction that fails: the call rejects, or the response
parses to null. -/
def oracleFails : OracleCall → Prop
  | .threw => True
  | .returned resp => parseAIResponse resp = none

/-- A cache holding no successful score (every stored value is null). -/
def noCachedScore (cache : AiCache) : Prop :=
  ∀ k q, lookupA cache k = some (some q) → False

/-- The variant-B variation list of the laugh action (its two default
variants). -/
def laughVariantsB : List Chars :=
  [cs "scripts/extensions/third-party/st-sound-triggers/sounds/laugh/laugh1.mp3",
   cs "scripts/extensions/third-party/st-sound-triggers/sounds/laugh/laugh2.mp3"]

/-- Initialized state in which laugh was last played at time 1000. -/
def stWithRecent : ExtensionState :=
  { initializedState with recentSounds := [(.laugh, 1000)] }

/-! ### Theorems for the claims -/

/-- C1 counterexample: for the text She laughed at the joke and walked to
the door, under default settings (sensitivity 0.8, oracle disabled) and
fresh regex state, the Scorer does not give the laugh sound 0.85 — the
second laugh exclusion pattern matches the phrase laughed at, so the
result is score 0 with reason excluded_by_pattern. -/
theorem c1_scenario_counterexample :
    (analyzeContext true false .threw [] textScenario .laugh laughPattern1 0
      laughExcludes [0, 0]).result.score = 0 ∧
    (analyzeContext true false .threw [] textScenario .laugh laughPattern1 0
      laughExcludes [0, 0]).result.reason = .excluded_by_pattern := by
  decide

/-- C1 amended: on that text with default settings, oracle disabled and
fresh regex state, laugh is excluded (score exactly 0), the footsteps
action pattern scores 0.7 (base 0.5 plus the 0.2 past-tense bonus; the
pronoun-attribution regex is case-sensitive and does not match the
capitalized She), both door patterns fail to match, 0.7 is below the 0.8
threshold, and a full processMessage dispatches nothing. -/
theorem c1_scenario_amended :
    ((analyzeContext true false .threw [] textScenario .laugh laughPattern1 0
        laughExcludes [0, 0]).result.score = 0 ∧
     (analyzeContext true false .threw [] textScenario .laugh laughPattern1 0
        laughExcludes [0, 0]).result.reason = .excluded_by_pattern) ∧
    ((analyzeContext true false .threw [] textScenario .footsteps footstepsPattern1 0
        [footstepsExclude1] [0]).result.score = (7 : ℚ)/10 ∧
     (analyzeContext true false .threw [] textScenario .footsteps footstepsPattern1 0
        [footstepsExclude1] [0]).result.reason = .pattern_analyzed ∧
     (7 : ℚ)/10 < defaultSettings.contextSensitivity) ∧
    ((analyzeContext true false .threw [] textScenario .door doorPattern1 0
        [] []).result.reason = .no_match ∧
     (analyzeContext true false .threw [] textScenario .door doorPattern2 0
        [] []).result.reason = .no_match) ∧
    (processMessage defaultSettings initializedState textScenario 100000
      (fun _ => 0) .threw true).dispatched = [] := by
  decide

/-- C2: the exclusion guarantee fails on the code because the shared
exclusion regex objects carry g-flag state.  On the second consecutive
invocation of the Scorer on She was laughing and laughing at me, the
second laugh exclusion pattern still matches the extracted sentence (its
fresh-state evaluation succeeds), yet the returned result is score 0.6
with reason pattern_analyzed, not score 0 with excluded_by_pattern: the
stale lastIndex of the exclusion regex made its test call miss. -/
theorem c2_exclusion_stateful_bug :
    statefulSecond.result.context.map (fun c => (laughExclude2 c.sentence 0).isSome)
      = some true ∧
    statefulSecond.result.score = (3 : ℚ)/5 ∧
    statefulSecond.result.reason = .pattern_analyzed := by
  decide

/-- C3: the concurrency cap fails on the code.  On a message triggering
laugh, cry, sigh and footsteps (each trigger word doubled so the analysis
exec still matches after the stateful pre-test), all four sounds are
dispatched although maxConcurrentSounds is 3: the splice truncates only
the promise array handed to Promise.allSettled, after each playSound call
has already started, so it cancels nothing; the awaited list is capped but
the dispatched sounds are not. -/
theorem c3_concurrency_cap_bug :
    (processMessage defaultSettings initializedState textDoubled 100000
      (fun _ => 0) .threw true).dispatched = [.laugh, .cry, .sigh, .footsteps] ∧
    defaultSettings.maxConcurrentSounds = 3 ∧
    defaultSettings.maxConcurrentSounds <
      (processMessage defaultSettings initializedState textDoubled 100000
        (fun _ => 0) .threw true).dispatched.length ∧
    (processMessage defaultSettings initializedState textDoubled 100000
      (fun _ => 0) .threw true).awaited = [.laugh, .cry, .sigh] := by
  decide

/-- C4: with the oracle disabled the Scorer is not deterministic.  Two
invocations of analyzeContext with identical arguments (same text, same
sound key, same pattern object) return different results — the first
returns score 0 with excluded_by_pattern, the second score 0.6 with
pattern_analyzed — because exec and test on the shared g-flag regex
objects mutate their lastIndex between the calls. -/
theorem c4_determinism_bug :
    statefulFirst.result.score = 0 ∧
    statefulFirst.result.reason = .excluded_by_pattern ∧
    statefulSecond.result.score = (3 : ℚ)/5 ∧
    statefulSecond.result.reason = .pattern_analyzed ∧
    statefulFirst.result ≠ statefulSecond.result := by
  decide

/-- C5: consecutive variation picks can repeat.  In chooseVariant the
stored last index is read through a logical-or with minus one, and 0 is
falsy in JS, so a stored last index 0 is replaced by minus one and the
repeat guard never fires: with two variations, last pick 0 and a random
draw of 0, the function returns index 0 again. -/
theorem c5_variation_repeat_bug :
    2 ≤ laughVariantsB.length ∧
    jsLastOr (some 0) = -1 ∧
    (chooseVariant laughVariantsB (some 0) 0).map Prod.snd = some 0 := by
  decide

/-- C9: whenever the trigger regex finds no match in the text from the
current state, the Scorer returns exactly score 0 with reason no_match
(and resets the regex lastIndex), independent of the oracle configuration,
the cache, the sound key and the exclusion patterns. -/
theorem c9_no_match (aiEnabled useAi : Bool) (oc : OracleCall) (cache : AiCache)
    (text : Chars) (soundKey : SoundKey) (pattern : TPattern) (li : Nat)
    (excludePatterns : List Matcher) (exLi : List Nat)
    (h : pattern.regex text li = none) :
    analyzeContext aiEnabled useAi oc cache text soundKey pattern li excludePatterns exLi =
      ⟨⟨0, .no_match, none, none⟩, 0, exLi, cache⟩ := by
  unfold analyzeContext execR
  rw [h]

/-- C9 witness: on You have a nice laugh, none of the three laugh trigger
regexes matches from fresh state, and each analysis returns the no_match
result. -/
theorem c9_no_match_witness :
    (laughPattern1.regex textReference 0 = none ∧
     analyzeContext true false .threw [] textReference .laugh laughPattern1 0
       laughExcludes [0, 0] = ⟨⟨0, .no_match, none, none⟩, 0, [0, 0], []⟩) ∧
    ((⟨laughRe2, .direct⟩ : TPattern).regex textReference 0 = none ∧
     analyzeContext true false .threw [] textReference .laugh ⟨laughRe2, .direct⟩ 0
       laughExcludes [0, 0] = ⟨⟨0, .no_match, none, none⟩, 0, [0, 0], []⟩) ∧
    ((⟨laughRe3, .dialogue⟩ : TPattern).regex textReference 0 = none ∧
     analyzeContext true false .threw [] textReference .laugh ⟨laughRe3, .dialogue⟩ 0
       laughExcludes [0, 0] = ⟨⟨0, .no_match, none, none⟩, 0, [0, 0], []⟩) :=
  ⟨⟨by decide, c9_no_match true false .threw [] textReference .laugh laughPattern1 0
      laughExcludes [0, 0] (by decide)⟩,
   ⟨by decide, c9_no_match true false .threw [] textReference .laugh ⟨laughRe2, .direct⟩ 0
      laughExcludes [0, 0] (by decide)⟩,
   ⟨by decide, c9_no_match true false .threw [] textReference .laugh ⟨laughRe3, .dialogue⟩ 0
      laughExcludes [0, 0] (by decide)⟩⟩

/-- C6: the cooldown comparison is strict.  If the sound key was last
played at time t0, then for any call at time now with now minus t0 below
the cooldown window the sound is not played, and at now equal to t0 plus
the window the cooldown check no longer rejects it (the call can still be
refused for other reasons, but never with the cooldown outcome). -/
theorem c6_cooldown_strict (settings : Settings) (st : ExtensionState)
    (soundKey : SoundKey) (text : Chars) (now : Int) (rand : ℚ) (oc : OracleCall)
    (playbackOk : Bool) (t0 : Int)
    (h0 : lookupA st.recentSounds soundKey = some t0) :
    (now - t0 < settings.preventRepeatMs →
      (playSound settings st soundKey text now rand oc playbackOk).1 ≠ .played) ∧
    (now = t0 + settings.preventRepeatMs →
      (playSound settings st soundKey text now rand oc playbackOk).1 ≠ .cooldown) := by
  constructor
  · intro hlt
    simp only [playSound, h0, Option.getD_some]
    repeat' split
    all_goals first
      | (exfalso; omega)
      | simp
  · intro heq
    simp only [playSound, h0, Option.getD_some]
    repeat' split
    all_goals first
      | (exfalso; omega)
      | simp

/-- C6 witness: with the default 2000 ms window and laugh last played at
time 1000, a call at 1500 is not played, and a call at exactly 3000 is not
rejected by the cooldown check. -/
theorem c6_cooldown_strict_witness :
    ((1500 : Int) - 1000 < defaultSettings.preventRepeatMs ∧
     (playSound defaultSettings stWithRecent .laugh textScenario 1500 0 .threw true).1
       ≠ .played) ∧
    ((3000 : Int) = 1000 + defaultSettings.preventRepeatMs ∧
     (playSound defaultSettings stWithRecent .laugh textScenario 3000 0 .threw true).1
       ≠ .cooldown) :=
  ⟨⟨by decide,
    (c6_cooldown_strict defaultSettings stWithRecent .laugh textScenario 1500 0 .threw
      true 1000 (by decide)).1 (by decide)⟩,
   ⟨by decide,
    (c6_cooldown_strict defaultSettings stWithRecent .laugh textScenario 3000 0 .threw
      true 1000 (by decide)).2 (by decide)⟩⟩

/-- C7: the recently-played timestamp map is written only by a successful
playback start.  For every settings, state and input, the recentSounds
component of the state returned by playSound is the old map with the key
set to now exactly when the outcome is played, and is the unchanged old
map on every other path (cooldown veto, score below threshold, missing
buffer, disabled system or category, and a throwing start call). -/
theorem c7_recent_update_only_on_play (settings : Settings) (st : ExtensionState)
    (soundKey : SoundKey) (text : Chars) (now : Int) (rand : ℚ) (oc : OracleCall)
    (playbackOk : Bool) :
    (playSound settings st soundKey text now rand oc playbackOk).2.2.recentSounds =
      (if (playSound settings st soundKey text now rand oc playbackOk).1 = .played
       then setA st.recentSounds soundKey now
       else st.recentSounds) := by
  simp only [playSound]
  repeat' split
  all_goals simp_all

/-- Helper: a failing oracle interaction yields null from analyzeWithAI
whenever the cache holds no successful score. -/
theorem analyzeWithAI_fails (cache : AiCache) (cacheKey : Chars) (oc : OracleCall)
    (hf : oracleFails oc) (hc : noCachedScore cache) :
    (analyzeWithAI cache cacheKey oc).1 = none := by
  unfold analyzeWithAI
  cases h : lookupA cache cacheKey with
  | some v =>
    cases v with
    | some q => exact absurd h (fun hh => hc cacheKey q hh)
    | none => simp
  | none =>
    cases oc with
    | threw => simp
    | returned resp =>
      simp only [oracleFails] at hf
      simp [hf]

/-- C8 amended: an oracle call that rejects or returns an unparseable
response (with no successful score cached for the sentence) never changes
the observable result: the Scorer returns exactly what the oracle-disabled
run returns, and in particular the reason is never ai_analyzed — on a
matching, non-excluded input this is the pattern_analyzed heuristic
fallback.  (The out-of-range response case of the original claim fails,
see the counterexample.) -/
theorem c8_oracle_fallback (aiEnabled useAi : Bool) (oc : OracleCall) (cache : AiCache)
    (text : Chars) (soundKey : SoundKey) (pattern : TPattern) (li : Nat)
    (excludePatterns : List Matcher) (exLi : List Nat)
    (hf : oracleFails oc) (hc : noCachedScore cache) :
    (analyzeContext aiEnabled useAi oc cache text soundKey pattern li
        excludePatterns exLi).result =
      (analyzeContext aiEnabled false oc cache text soundKey pattern li
        excludePatterns exLi).result ∧
    (analyzeContext aiEnabled useAi oc cache text soundKey pattern li
        excludePatterns exLi).result.reason ≠ .ai_analyzed := by
  unfold analyzeContext
  cases hexec : execR pattern.regex text li with
  | mk found newLi =>
    cases found with
    | none => exact ⟨rfl, by simp⟩
    | some pr =>
      cases pr with
      | mk idx e =>
        simp only
        cases hexcl : exclLoop excludePatterns exLi (extractSentence text idx) with
        | mk hit newExLi =>
          cases hit with
          | true => exact ⟨rfl, by simp⟩
          | false =>
            simp only [Bool.and_false, if_false]
            cases hai : (if aiEnabled && useAi then
                analyzeWithAI cache (mkCacheKey soundKey (extractSentence text idx)) oc
              else (none, cache)) with
            | mk aiScore newCache =>
              have h1 : aiScore = none := by
                by_cases hb : aiEnabled && useAi
                · rw [if_pos hb] at hai
                  have := analyzeWithAI_fails cache
                    (mkCacheKey soundKey (extractSentence text idx)) oc hf hc
                  rw [hai] at this
                  exact this
                · rw [if_neg hb] at hai
                  cases hai
                  rfl
              subst h1
              exact ⟨rfl, by simp⟩

/-- C8 witness: a rejecting oracle call with an empty cache on a matching,
non-excluded input (He sighed, sigh action pattern) yields exactly the
oracle-disabled result, which is the pattern_analyzed fallback. -/
theorem c8_oracle_fallback_witness :
    ((analyzeContext true true .threw [] textSighed .sigh sighPattern1 0 [] []).result =
       (analyzeContext true false .threw [] textSighed .sigh sighPattern1 0 [] []).result ∧
     (analyzeContext true true .threw [] textSighed .sigh sighPattern1 0 [] []).result.reason
       ≠ .ai_analyzed) ∧
    (analyzeContext true true .threw [] textSighed .sigh sighPattern1 0 [] []).result.reason
      = .pattern_analyzed :=
  ⟨c8_oracle_fallback true true .threw [] textSighed .sigh sighPattern1 0 [] []
    trivial (fun k q h => by simp [lookupA] at h),
   by decide⟩

/-- C8 counterexample: an out-of-range oracle response does not fall
through to the heuristic.  The response 1.5 (the number three halves is
outside the unit interval) is parsed by the score-extraction regex as the
leading in-range token 1, and the Scorer returns score 1 with reason
ai_analyzed instead of a pattern_analyzed fallback. -/
theorem c8_out_of_range_counterexample :
    parseAIResponse (cs "1.5") = some 1 ∧
    ¬ ((3 : ℚ)/2 ≤ 1) ∧
    (analyzeContext true true (.returned (cs "1.5")) [] textSighed .sigh sighPattern1 0
      [] []).result.reason = .ai_analyzed ∧
    (analyzeContext true true (.returned (cs "1.5")) [] textSighed .sigh sighPattern1 0
      [] []).result.score = 1 := by
  decide

/-- Helper: when the running position stays at or below the target through
the whole word list, the anchor loop of getSurroundingWords never breaks. -/
theorem findWordIndex_none (ws : List Chars) (position currentPos i : Nat)
    (h : currentPos + cumSpan ws ≤ position + 1) :
    findWordIndex ws position currentPos i = none := by
  induction ws generalizing currentPos i with
  | nil => rfl
  | cons w rest ih =>
    have hspan : cumSpan (w :: rest) = (w.length + 1) + cumSpan rest := by
      simp [cumSpan]
    rw [hspan] at h
    unfold findWordIndex
    rw [if_neg (by omega)]
    exact ih (currentPos + w.length + 1) (i + 1) (by omega)

/-- Helper: taking up to the clamped window end is taking the window size. -/
theorem take_min_len (l : List α) (n : Nat) : l.take (min l.length n) = l.take n := by
  rcases Nat.le_total l.length n with h | h
  · rw [Nat.min_eq_left h, List.take_length, List.take_of_length_le h]
  · rw [Nat.min_eq_right h]

/-- C10: when the offset is at or beyond the cumulative character span of
the whitespace-split tokens (each word length plus one, the quantity the
anchor loop accumulates), the anchor search never breaks, the anchor index
stays 0, and getSurroundingWords returns the first windowSize words of the
text (all of them when fewer) joined by single spaces. -/
theorem c10_window_at_start (text : Chars) (position wordCount : Nat)
    (h : cumSpan (splitWs text) ≤ position) :
    findWordIndex (splitWs text) position 0 0 = none ∧
    getSurroundingWords text position wordCount =
      joinSp ((splitWs text).take wordCount) := by
  have hn : findWordIndex (splitWs text) position 0 0 = none :=
    findWordIndex_none (splitWs text) position 0 0 (by omega)
  refine ⟨hn, ?_⟩
  simp only [getSurroundingWords]
  rw [hn]
  simp only [Option.getD_none, Nat.zero_sub, Nat.zero_add, List.drop_zero]
  rw [take_min_len]

/-- C10 witness: with the text alpha beta gamma (cumulative span 17), an
offset of 20 past the end and window 2, the function returns the first two
words. -/
theorem c10_window_at_start_witness :
    cumSpan (splitWs (cs "alpha beta gamma")) ≤ 20 ∧
    (findWordIndex (splitWs (cs "alpha beta gamma")) 20 0 0 = none ∧
     getSurroundingWords (cs "alpha beta gamma") 20 2 =
       joinSp ((splitWs (cs "alpha beta gamma")).take 2)) :=
  ⟨by decide, c10_window_at_start (cs "alpha beta gamma") 20 2 (by decide)⟩
